import Mathlib

/-!
# qt-opencv-multithreaded: `MainWindow.cpp`

A shallow embedding of the slots of `MainWindow` (constructor, destructor,
`connectToCamera`, `disconnectCamera`, `clearImageBuffer`, the six toggle
setters and `updateFrame`) as pure state-passing functions.

* The window is a record of the members and widgets the source reads or writes.
* `Controller`, `CaptureThread` and `ProcessingThread` are declared in headers
  that are not part of `MainWindow.cpp`; they are records of exactly the members
  `MainWindow.cpp` touches, and the bodies of the controller's methods are the
  parameter `ControllerOps`.
* Every call on the controller and every message box is appended to an event
  trace returned next to the new state.
* A slot that dereferences `controller` returns `none` when it is `NULL`.
* Qt widget setters are their plain assignments; `QAction::setChecked` emits
  `toggled(bool)` to the wired slot exactly when the checked state changes.
-/

namespace QtOpenCV

/-- The image handed over by the `newFrame(QImage)` signal. -/
structure QImage where
  pixels : List Nat
deriving DecidableEq, Repr

/-- The `processingFlags` structure (six booleans), lines 53-58 and 308-313. -/
structure ProcessingFlags where
  grayscaleOn : Bool
  smoothOn : Bool
  dilateOn : Bool
  erodeOn : Bool
  flipOn : Bool
  cannyOn : Bool
deriving DecidableEq, Repr

/-- The `processingSettings` structure, the eleven members copied at lines 315-325. -/
structure ProcessingSettings where
  smoothType : Int
  smoothParam1 : Int
  smoothParam2 : Int
  smoothParam3 : Int
  smoothParam4 : Int
  dilateNumberOfIterations : Int
  erodeNumberOfIterations : Int
  flipMode : Int
  cannyThreshold1 : Int
  cannyThreshold2 : Int
  cannyApertureSize : Int
deriving DecidableEq, Repr

/-- The worker-side `frameLabel` structure written at lines 301-306. -/
structure MouseData where
  mouseXPos : Int
  mouseYPos : Int
  mouseLeftPressed : Bool
  mouseRightPressed : Bool
  mouseLeftReleased : Bool
  mouseRightReleased : Bool
deriving DecidableEq, Repr

/-- The rectangle `newROI` read at lines 339-342. -/
structure Rect where
  x : Int
  y : Int
  width : Int
  height : Int
deriving DecidableEq, Repr

/-- Members of `controller->captureThread` used by `MainWindow.cpp`;
`capture` is `true` when the pointer is not `NULL`, `finished` is `isFinished()`. -/
structure CaptureThread where
  isActive : Bool
  finished : Bool
  capture : Bool
  avgFPS : Int
deriving DecidableEq, Repr

/-- Members of `controller->processingThread` used by `MainWindow.cpp`. -/
structure ProcessingThread where
  isActive : Bool
  finished : Bool
  frameLabel : MouseData
  processingFlags : ProcessingFlags
  processingSettings : ProcessingSettings
  currentSizeOfBuffer : Int
  avgFPS : Int
  newROI : Rect
deriving DecidableEq, Repr

/-- The object behind the `controller` pointer. -/
structure Controller where
  captureThread : CaptureThread
  processingThread : ProcessingThread
deriving DecidableEq, Repr

/-- Bodies of the `Controller` methods called from `MainWindow.cpp`
(`Controller.cpp` is not part of the source), taken as parameters. -/
structure ControllerOps where
  newController : Int → Int → Controller
  stopProcessingThread : Controller → Controller
  stopCaptureThread : Controller → Controller
  clearImageBuffer : Controller → Controller
  disconnectCamera : Controller → Controller
  deleteProcessingThread : Controller → Controller
  deleteCaptureThread : Controller → Controller
  getInputSourceWidth : Controller → Int
  getInputSourceHeight : Controller → Int

/-- What a slot does to the outside: calls on the controller, the queued
`newFrame` connection, and message boxes. -/
inductive Event where
  | newController (deviceNumber : Int) (imageBufferSize : Int)
  | connectNewFrame
  | disconnectNewFrame
  | stopProcessingThread
  | stopCaptureThread
  | clearImageBuffer
  | disconnectCamera
  | deleteProcessingThread
  | deleteCaptureThread
  | deleteController
  | warning (title : String) (text : String)
deriving DecidableEq, Repr

/-- A `QAction`: enabled state and checked state. -/
structure QAction where
  enabled : Bool
  checked : Bool
deriving DecidableEq, Repr

/-- What a `QLabel` shows: `setText` or `setPixmap`. -/
inductive LabelContent where
  | text (s : String)
  | pixmap (img : QImage)
deriving DecidableEq, Repr

/-- The GUI-side `frameLabel` widget: its content and the mouse state behind
`getMouseXPos`, `getLeftMouseButtonPress`, `getLeftMouseButtonRelease`, ... -/
structure FrameLabel where
  content : LabelContent
  mouseXPos : Int
  mouseYPos : Int
  leftMouseButtonPress : Bool
  rightMouseButtonPress : Bool
  leftMouseButtonRelease : Bool
  rightMouseButtonRelease : Bool
deriving DecidableEq, Repr

/-- The `imageBufferBar` progress bar. -/
structure QProgressBar where
  minimum : Int
  maximum : Int
  value : Int
deriving DecidableEq, Repr

/-- The outcome of `cameraConnectDialog->exec()` with the two values the
dialog hands back. -/
structure CameraConnectDialog where
  execResult : Int
  deviceNumber : Int
  imageBufferSize : Int
deriving DecidableEq, Repr

/-- The `processingSettingsDialog`, of which `MainWindow.cpp` reads the stored settings. -/
structure ProcessingSettingsDialog where
  processingSettings : ProcessingSettings
deriving DecidableEq, Repr

/-- The members and widgets of `MainWindow` that `MainWindow.cpp` reads or writes. -/
structure MainWindow where
  controller : Option Controller
  processingSettingsDialog : ProcessingSettingsDialog
  cameraConnectDialog : Option CameraConnectDialog
  processingFlags : ProcessingFlags
  appVersion : String
  imageBufferSize : Int
  sourceWidth : Int
  sourceHeight : Int
  connectToCameraAction : QAction
  disconnectCameraAction : QAction
  processingMenuEnabled : Bool
  grayscaleAction : QAction
  smoothAction : QAction
  dilateAction : QAction
  erodeAction : QAction
  flipAction : QAction
  cannyAction : QAction
  frameLabel : FrameLabel
  imageBufferBar : QProgressBar
  imageBufferLabel : String
  captureRateLabel : String
  processingRateLabel : String
  deviceNumberLabel : String
  cameraResolutionLabel : String
  roiLabel : String
  mouseCursorPosLabel : String
  clearImageBufferButtonEnabled : Bool
deriving DecidableEq, Repr

namespace MainWindow

/-! ### The six toggle slots (lines 232-290) -/

/-- Lines 232-240. -/
def setGrayscale (w : MainWindow) (input : Bool) : MainWindow :=
  if !input then { w with processingFlags := { w.processingFlags with grayscaleOn := false } }
  else if input then { w with processingFlags := { w.processingFlags with grayscaleOn := true } }
  else w

/-- Lines 242-250. -/
def setSmooth (w : MainWindow) (input : Bool) : MainWindow :=
  if !input then { w with processingFlags := { w.processingFlags with smoothOn := false } }
  else if input then { w with processingFlags := { w.processingFlags with smoothOn := true } }
  else w

/-- Lines 252-260. -/
def setDilate (w : MainWindow) (input : Bool) : MainWindow :=
  if !input then { w with processingFlags := { w.processingFlags with dilateOn := false } }
  else if input then { w with processingFlags := { w.processingFlags with dilateOn := true } }
  else w

/-- Lines 262-270. -/
def setErode (w : MainWindow) (input : Bool) : MainWindow :=
  if !input then { w with processingFlags := { w.processingFlags with erodeOn := false } }
  else if input then { w with processingFlags := { w.processingFlags with erodeOn := true } }
  else w

/-- Lines 272-280. -/
def setFlip (w : MainWindow) (input : Bool) : MainWindow :=
  if !input then { w with processingFlags := { w.processingFlags with flipOn := false } }
  else if input then { w with processingFlags := { w.processingFlags with flipOn := true } }
  else w

/-- Lines 282-290. -/
def setCanny (w : MainWindow) (input : Bool) : MainWindow :=
  if !input then { w with processingFlags := { w.processingFlags with cannyOn := false } }
  else if input then { w with processingFlags := { w.processingFlags with cannyOn := true } }
  else w

/-! ### `QAction::setChecked` on the six toggle actions, wired at lines 65-70 -/

/-- The call `grayscaleAction->setChecked(b)`: a change of the checked state emits
`toggled(b)`, connected at line 65 to `setGrayscale`. -/
def grayscaleAction_setChecked (w : MainWindow) (b : Bool) : MainWindow :=
  if w.grayscaleAction.checked = b then w
  else setGrayscale { w with grayscaleAction := { w.grayscaleAction with checked := b } } b

/-- The call `smoothAction->setChecked(b)`, `toggled` connected at line 66. -/
def smoothAction_setChecked (w : MainWindow) (b : Bool) : MainWindow :=
  if w.smoothAction.checked = b then w
  else setSmooth { w with smoothAction := { w.smoothAction with checked := b } } b

/-- The call `dilateAction->setChecked(b)`, `toggled` connected at line 67. -/
def dilateAction_setChecked (w : MainWindow) (b : Bool) : MainWindow :=
  if w.dilateAction.checked = b then w
  else setDilate { w with dilateAction := { w.dilateAction with checked := b } } b

/-- The call `erodeAction->setChecked(b)`, `toggled` connected at line 68. -/
def erodeAction_setChecked (w : MainWindow) (b : Bool) : MainWindow :=
  if w.erodeAction.checked = b then w
  else setErode { w with erodeAction := { w.erodeAction with checked := b } } b

/-- The call `flipAction->setChecked(b)`, `toggled` connected at line 69. -/
def flipAction_setChecked (w : MainWindow) (b : Bool) : MainWindow :=
  if w.flipAction.checked = b then w
  else setFlip { w with flipAction := { w.flipAction with checked := b } } b

/-- The call `cannyAction->setChecked(b)`, `toggled` connected at line 70. -/
def cannyAction_setChecked (w : MainWindow) (b : Bool) : MainWindow :=
  if w.cannyAction.checked = b then w
  else setCanny { w with cannyAction := { w.cannyAction with checked := b } } b

/-! ### Constructor and destructor (lines 44-126) -/

/-- The constructor, lines 44-95. `ui` is the window as `setupUi(this)` leaves it
(the form is not part of the source), `dialog` the freshly created
`ProcessingSettingsDialog`, `version` the expansion of `QUOTE(APP_VERSION)`.
The `setChecked(false)` calls of lines 79-84 run after the `toggled` signals
were connected at lines 65-70. -/
def construct (ui : MainWindow) (dialog : ProcessingSettingsDialog) (version : String) :
    MainWindow := Id.run do
  let mut w := ui
  w := { w with controller := none }
  w := { w with processingSettingsDialog := dialog }
  w := { w with processingFlags.grayscaleOn := false }
  w := { w with processingFlags.smoothOn := false }
  w := { w with processingFlags.dilateOn := false }
  w := { w with processingFlags.erodeOn := false }
  w := { w with processingFlags.flipOn := false }
  w := { w with processingFlags.cannyOn := false }
  w := { w with appVersion := version }
  w := { w with connectToCameraAction.enabled := !false }
  w := { w with disconnectCameraAction.enabled := !true }
  w := { w with processingMenuEnabled := !true }
  w := grayscaleAction_setChecked w false
  w := smoothAction_setChecked w false
  w := dilateAction_setChecked w false
  w := erodeAction_setChecked w false
  w := flipAction_setChecked w false
  w := cannyAction_setChecked w false
  w := { w with frameLabel.content := .text "No camera connected." }
  w := { w with imageBufferBar.value := 0 }
  w := { w with imageBufferLabel := "[000/000]" }
  w := { w with captureRateLabel := "" }
  w := { w with processingRateLabel := "" }
  w := { w with deviceNumberLabel := "" }
  w := { w with cameraResolutionLabel := "" }
  w := { w with roiLabel := "" }
  w := { w with mouseCursorPosLabel := "" }
  w := { w with clearImageBufferButtonEnabled := !true }
  return w

/-- The destructor, lines 97-126: the window members as it leaves them, and
the trace of what it issued. -/
def destruct (ops : ControllerOps) (w : MainWindow) : MainWindow × List Event :=
  match w.controller with
  | some c =>
    let tr : List Event := [.disconnectNewFrame]
    let s1 := if c.processingThread.isActive
      then (ops.stopProcessingThread c, tr ++ [.stopProcessingThread]) else (c, tr)
    let s2 := if s1.1.captureThread.isActive
      then (ops.stopCaptureThread s1.1, s1.2 ++ [.stopCaptureThread]) else s1
    let s3 := (ops.clearImageBuffer s2.1, s2.2 ++ [.clearImageBuffer])
    let s6 :=
      if s3.1.captureThread.finished && s3.1.processingThread.finished then
        let s4 := if s3.1.captureThread.capture
          then (ops.disconnectCamera s3.1, s3.2 ++ [.disconnectCamera]) else s3
        let s5 := (ops.deleteProcessingThread s4.1, s4.2 ++ [.deleteProcessingThread])
        (ops.deleteCaptureThread s5.1, s5.2 ++ [.deleteCaptureThread])
      else s3
    ({ w with controller := none }, s6.2 ++ [.deleteController])
  | none => (w, [])

/-! ### `connectToCamera`, `disconnectCamera`, `clearImageBuffer` (lines 128-230) -/

/-- Lines 145-159, the branch of `connectToCamera` for an opened camera. -/
def connectToCamera_success (ops : ControllerOps) (w : MainWindow) (c : Controller)
    (dlg : CameraConnectDialog) : MainWindow := Id.run do
  let mut w := w
  w := { w with imageBufferBar.minimum := 0 }
  w := { w with imageBufferBar.maximum := w.imageBufferSize }
  w := { w with connectToCameraAction.enabled := !true }
  w := { w with disconnectCameraAction.enabled := !false }
  w := { w with processingMenuEnabled := !false }
  w := { w with clearImageBufferButtonEnabled := !false }
  w := { w with sourceWidth := ops.getInputSourceWidth c }
  w := { w with sourceHeight := ops.getInputSourceHeight c }
  w := { w with deviceNumberLabel := toString dlg.deviceNumber }
  w := { w with cameraResolutionLabel := toString w.sourceWidth ++ "x" ++ toString w.sourceHeight }
  return w

/-- Lines 128-165. `dlg` is the dialog created at line 131 together with what
the user did with it. -/
def connectToCamera (ops : ControllerOps) (w : MainWindow) (dlg : CameraConnectDialog) :
    MainWindow × List Event :=
  let w : MainWindow := { w with cameraConnectDialog := some dlg }
  if dlg.execResult = 1 then
    let w : MainWindow := { w with imageBufferSize := dlg.imageBufferSize }
    let c := ops.newController dlg.deviceNumber w.imageBufferSize
    let tr : List Event := [.newController dlg.deviceNumber w.imageBufferSize]
    let w : MainWindow := { w with controller := some c }
    if c.captureThread.capture then
      (connectToCamera_success ops w c dlg, tr ++ [.connectNewFrame])
    else
      (w, tr ++ [.warning "ERROR:" "Could not connect to camera."])
  else (w, [])

/-- Lines 193-215, what `disconnectCamera` does to the window after the teardown. -/
def disconnectCamera_reset (w : MainWindow) : MainWindow := Id.run do
  let mut w := w
  w := { w with controller := none }
  w := { w with connectToCameraAction.enabled := !false }
  w := { w with disconnectCameraAction.enabled := !true }
  w := { w with processingMenuEnabled := !true }
  w := grayscaleAction_setChecked w false
  w := smoothAction_setChecked w false
  w := dilateAction_setChecked w false
  w := erodeAction_setChecked w false
  w := flipAction_setChecked w false
  w := cannyAction_setChecked w false
  w := { w with frameLabel.content := .text "No camera connected." }
  w := { w with imageBufferBar.value := 0 }
  w := { w with imageBufferLabel := "[000/000]" }
  w := { w with captureRateLabel := "" }
  w := { w with processingRateLabel := "" }
  w := { w with deviceNumberLabel := "" }
  w := { w with cameraResolutionLabel := "" }
  w := { w with roiLabel := "" }
  w := { w with mouseCursorPosLabel := "" }
  w := { w with clearImageBufferButtonEnabled := !true }
  return w

/-- Lines 167-220. -/
def disconnectCamera (ops : ControllerOps) (w : MainWindow) : MainWindow × List Event :=
  match w.controller with
  | some c =>
    let tr : List Event := [.disconnectNewFrame]
    let s1 := if c.processingThread.isActive
      then (ops.stopProcessingThread c, tr ++ [.stopProcessingThread]) else (c, tr)
    let s2 := if s1.1.captureThread.isActive
      then (ops.stopCaptureThread s1.1, s1.2 ++ [.stopCaptureThread]) else s1
    let s3 := (ops.clearImageBuffer s2.1, s2.2 ++ [.clearImageBuffer])
    let s6 :=
      if s3.1.captureThread.finished && s3.1.processingThread.finished then
        let s4 := if s3.1.captureThread.capture
          then (ops.disconnectCamera s3.1, s3.2 ++ [.disconnectCamera]) else s3
        let s5 := (ops.deleteProcessingThread s4.1, s4.2 ++ [.deleteProcessingThread])
        (ops.deleteCaptureThread s5.1, s5.2 ++ [.deleteCaptureThread])
      else s3
    (disconnectCamera_reset w, s6.2 ++ [.deleteController])
  | none => (w, [.warning "ERROR:" "Could not disconnect camera."])

/-- Lines 227-230: `controller` is dereferenced without a check. -/
def clearImageBuffer (ops : ControllerOps) (w : MainWindow) : Option (MainWindow × List Event) :=
  match w.controller with
  | some c => some ({ w with controller := some (ops.clearImageBuffer c) }, [.clearImageBuffer])
  | none => none

/-! ### `updateFrame` (lines 292-349) -/

/-- Lines 301-325: the worker-side members `updateFrame` writes, from the label
`l`, the GUI flags `f` and the stored settings `g`. -/
def updateFrame_publish (p : ProcessingThread) (l : FrameLabel) (f : ProcessingFlags)
    (g : ProcessingSettings) : ProcessingThread := Id.run do
  let mut p := p
  p := { p with frameLabel.mouseXPos := l.mouseXPos }
  p := { p with frameLabel.mouseYPos := l.mouseYPos }
  p := { p with frameLabel.mouseLeftPressed := l.leftMouseButtonPress }
  p := { p with frameLabel.mouseRightPressed := l.rightMouseButtonPress }
  p := { p with frameLabel.mouseLeftReleased := l.leftMouseButtonRelease }
  p := { p with frameLabel.mouseRightReleased := l.rightMouseButtonRelease }
  p := { p with processingFlags.grayscaleOn := f.grayscaleOn }
  p := { p with processingFlags.smoothOn := f.smoothOn }
  p := { p with processingFlags.dilateOn := f.dilateOn }
  p := { p with processingFlags.erodeOn := f.erodeOn }
  p := { p with processingFlags.flipOn := f.flipOn }
  p := { p with processingFlags.cannyOn := f.cannyOn }
  p := { p with processingSettings.smoothType := g.smoothType }
  p := { p with processingSettings.smoothParam1 := g.smoothParam1 }
  p := { p with processingSettings.smoothParam2 := g.smoothParam2 }
  p := { p with processingSettings.smoothParam3 := g.smoothParam3 }
  p := { p with processingSettings.smoothParam4 := g.smoothParam4 }
  p := { p with processingSettings.dilateNumberOfIterations := g.dilateNumberOfIterations }
  p := { p with processingSettings.erodeNumberOfIterations := g.erodeNumberOfIterations }
  p := { p with processingSettings.flipMode := g.flipMode }
  p := { p with processingSettings.cannyThreshold1 := g.cannyThreshold1 }
  p := { p with processingSettings.cannyThreshold2 := g.cannyThreshold2 }
  p := { p with processingSettings.cannyApertureSize := g.cannyApertureSize }
  return p

/-- Lines 296-299: the label's press flags are reset where the worker `m` has seen the
press and the label has seen the release. -/
def updateFrame_resetPress (m : MouseData) (l : FrameLabel) : FrameLabel :=
  let l : FrameLabel := if m.mouseRightPressed && l.rightMouseButtonRelease
    then { l with rightMouseButtonPress := false } else l
  let l : FrameLabel := if m.mouseLeftPressed && l.leftMouseButtonRelease
    then { l with leftMouseButtonPress := false } else l
  l

/-- Lines 292-349: `controller` is dereferenced without a check. -/
def updateFrame (w : MainWindow) (frame : QImage) : Option MainWindow :=
  match w.controller with
  | none => none
  | some c => some <| Id.run do
    let mut w := w
    w := { w with frameLabel := updateFrame_resetPress c.processingThread.frameLabel w.frameLabel }
    let p := updateFrame_publish c.processingThread w.frameLabel w.processingFlags
      w.processingSettingsDialog.processingSettings
    let c : Controller := { c with processingThread := p }
    w := { w with controller := some c }
    w := { w with imageBufferLabel :=
             "[" ++ toString p.currentSizeOfBuffer ++ "/" ++ toString w.imageBufferSize ++ "]" }
    w := { w with imageBufferBar.value := p.currentSizeOfBuffer }
    w := { w with captureRateLabel := toString c.captureThread.avgFPS }
    w := { w with captureRateLabel := w.captureRateLabel ++ " fps" }
    w := { w with processingRateLabel := toString p.avgFPS }
    w := { w with processingRateLabel := w.processingRateLabel ++ " fps" }
    w := { w with roiLabel :=
             "(" ++ toString p.newROI.x ++ "," ++ toString p.newROI.y ++ ") " ++
             toString p.newROI.width ++ "x" ++ toString p.newROI.height }
    w := { w with mouseCursorPosLabel :=
             "(" ++ toString w.frameLabel.mouseXPos ++ "," ++ toString w.frameLabel.mouseYPos ++ ")" }
    w := { w with frameLabel.content := .pixmap frame }
    return w

end MainWindow

/-! ### Sample inputs -/

/-- A controller as a successful `new Controller(..)` could leave it: both
workers started, the camera open. -/
def runningController : Controller :=
  { captureThread := { isActive := true, finished := false, capture := true, avgFPS := 30 },
    processingThread :=
      { isActive := true, finished := false,
        frameLabel := ⟨0, 0, false, false, false, false⟩,
        processingFlags := ⟨false, false, false, false, false, false⟩,
        processingSettings := ⟨0, 3, 3, 0, 0, 1, 1, 0, 50, 150, 3⟩,
        currentSizeOfBuffer := 2, avgFPS := 25, newROI := ⟨0, 0, 640, 480⟩ } }

/-- A controller whose camera could not be opened: `capture == NULL`, no worker started. -/
def failedController : Controller :=
  { runningController with
    captureThread := { isActive := false, finished := true, capture := false, avgFPS := 0 },
    processingThread :=
      { runningController.processingThread with isActive := false, finished := true } }

/-- Sample bodies for the controller methods: device `0` opens, any other device does
not; a stop call returns with its worker inactive and finished; releasing the camera
nulls `capture`. -/
def sampleOps : ControllerOps :=
  { newController := fun dev _ => if dev = 0 then runningController else failedController,
    stopProcessingThread := fun c =>
      { c with processingThread := { c.processingThread with isActive := false, finished := true } },
    stopCaptureThread := fun c =>
      { c with captureThread := { c.captureThread with isActive := false, finished := true } },
    clearImageBuffer := fun c =>
      { c with processingThread := { c.processingThread with currentSizeOfBuffer := 0 } },
    disconnectCamera := fun c => { c with captureThread := { c.captureThread with capture := false } },
    deleteProcessingThread := fun c => c,
    deleteCaptureThread := fun c => c,
    getInputSourceWidth := fun _ => 640,
    getInputSourceHeight := fun _ => 480 }

/-- A window as some form could leave it after `setupUi`. -/
def sampleUi : MainWindow :=
  { controller := none,
    processingSettingsDialog := ⟨⟨0, 3, 3, 0, 0, 1, 1, 0, 50, 150, 3⟩⟩,
    cameraConnectDialog := none,
    processingFlags := ⟨false, false, false, false, false, false⟩,
    appVersion := "",
    imageBufferSize := 0, sourceWidth := 0, sourceHeight := 0,
    connectToCameraAction := ⟨true, false⟩,
    disconnectCameraAction := ⟨true, false⟩,
    processingMenuEnabled := true,
    grayscaleAction := ⟨true, false⟩, smoothAction := ⟨true, false⟩,
    dilateAction := ⟨true, false⟩, erodeAction := ⟨true, false⟩,
    flipAction := ⟨true, false⟩, cannyAction := ⟨true, false⟩,
    frameLabel := ⟨.text "", 0, 0, false, false, false, false⟩,
    imageBufferBar := ⟨0, 100, 24⟩,
    imageBufferLabel := "TextLabel", captureRateLabel := "TextLabel",
    processingRateLabel := "TextLabel", deviceNumberLabel := "TextLabel",
    cameraResolutionLabel := "TextLabel", roiLabel := "TextLabel",
    mouseCursorPosLabel := "TextLabel",
    clearImageBufferButtonEnabled := true }

/-- The window right after its constructor ran on `sampleUi`. -/
def sampleWindow : MainWindow :=
  MainWindow.construct sampleUi sampleUi.processingSettingsDialog "1.0"

/-- The dialog accepted for device `0` with a buffer of ten frames. -/
def acceptDevice0 : CameraConnectDialog := ⟨1, 0, 10⟩

/-- The dialog accepted for device `7`, which `sampleOps` cannot open. -/
def acceptDevice7 : CameraConnectDialog := ⟨1, 7, 10⟩

/-- The window after a successful `connectToCamera` on `sampleWindow`. -/
def connectedWindow : MainWindow :=
  (MainWindow.connectToCamera sampleOps sampleWindow acceptDevice0).1

/-- The grayscale action checked by the user on `connectedWindow`. -/
def grayscaleWindow : MainWindow :=
  MainWindow.grayscaleAction_setChecked connectedWindow true

/-- The window after a frame arrived on `grayscaleWindow`. -/
def framedWindow : MainWindow :=
  (MainWindow.updateFrame grayscaleWindow ⟨[7]⟩).getD grayscaleWindow

/-! ### The toggle actions as one family -/

/-- The six checkable actions wired to a setter at lines 65-70. -/
inductive Toggle where
  | grayscale | smooth | dilate | erode | flip | canny
deriving DecidableEq, Repr

/-- The slot each action's `toggled(bool)` signal is connected to (lines 65-70). -/
def Toggle.slot : Toggle → MainWindow → Bool → MainWindow
  | .grayscale => MainWindow.setGrayscale
  | .smooth => MainWindow.setSmooth
  | .dilate => MainWindow.setDilate
  | .erode => MainWindow.setErode
  | .flip => MainWindow.setFlip
  | .canny => MainWindow.setCanny

/-- The member of a `ProcessingFlags` that belongs to an action. -/
def Toggle.flag : Toggle → ProcessingFlags → Bool
  | .grayscale, f => f.grayscaleOn
  | .smooth, f => f.smoothOn
  | .dilate, f => f.dilateOn
  | .erode, f => f.erodeOn
  | .flip, f => f.flipOn
  | .canny, f => f.cannyOn

/-- The `QAction` of the window that belongs to a toggle. -/
def Toggle.action : Toggle → MainWindow → QAction
  | .grayscale, w => w.grayscaleAction
  | .smooth, w => w.smoothAction
  | .dilate, w => w.dilateAction
  | .erode, w => w.erodeAction
  | .flip, w => w.flipAction
  | .canny, w => w.cannyAction

/-- The call `action->setChecked(b)` on one of the six actions. -/
def Toggle.setChecked : Toggle → MainWindow → Bool → MainWindow
  | .grayscale => MainWindow.grayscaleAction_setChecked
  | .smooth => MainWindow.smoothAction_setChecked
  | .dilate => MainWindow.dilateAction_setChecked
  | .erode => MainWindow.erodeAction_setChecked
  | .flip => MainWindow.flipAction_setChecked
  | .canny => MainWindow.cannyAction_setChecked

/-! ### Traces -/

/-- Event `a` is issued before event `b` in the trace `tr` (both occur, `a` first). -/
def issuedBefore (a b : Event) (tr : List Event) : Prop :=
  a ∈ tr ∧ b ∈ tr ∧ tr.indexOf a < tr.indexOf b

instance (a b : Event) (tr : List Event) : Decidable (issuedBefore a b tr) :=
  inferInstanceAs (Decidable (a ∈ tr ∧ b ∈ tr ∧ tr.indexOf a < tr.indexOf b))

/-- The three calls that destroy a worker or close the source. -/
def Event.isDestructive : Event → Bool
  | .disconnectCamera => true
  | .deleteProcessingThread => true
  | .deleteCaptureThread => true
  | _ => false

/-- Everything in a trace that is addressed to the controller or its signal:
all events but the message boxes. -/
def Event.isControllerOp : Event → Bool
  | .warning _ _ => false
  | _ => true

/-- The controller as it is when the `isFinished()` test of line 183 (line 113 in the
destructor) is evaluated: after the two conditional stop calls and `clearImageBuffer`. -/
def finishedCheckState (ops : ControllerOps) (c : Controller) : Controller :=
  let c1 := if c.processingThread.isActive then ops.stopProcessingThread c else c
  let c2 := if c1.captureThread.isActive then ops.stopCaptureThread c1 else c1
  ops.clearImageBuffer c2

/-- The teardown trace in closed form, by the outcome of the four tests of lines
175, 178, 183 and 186. -/
def teardownTrace (procActive capActive finished captureOpen : Bool) : List Event :=
  [.disconnectNewFrame] ++
  (if procActive then [.stopProcessingThread] else []) ++
  (if capActive then [.stopCaptureThread] else []) ++
  [.clearImageBuffer] ++
  (if finished then
    (if captureOpen then [.disconnectCamera] else []) ++
      [.deleteProcessingThread, .deleteCaptureThread]
   else []) ++
  [.deleteController]

/-- The controller after the conditional `stopProcessingThread` of lines 175-176. -/
def afterProcessingStop (ops : ControllerOps) (c : Controller) : Controller :=
  if c.processingThread.isActive then ops.stopProcessingThread c else c

/-! ### Reachable window states -/

/-- The values the constructor establishes and `disconnectCamera` sets again:
the controller pointer, the enabled state of the two camera actions, the processing
menu and the clear-buffer button, the checked state of the six toggle actions, the
buffer bar value, every label text, and the six processing flags. -/
structure EstablishedState where
  controller : Option Controller
  connectToCameraEnabled : Bool
  disconnectCameraEnabled : Bool
  processingMenuEnabled : Bool
  clearImageBufferButtonEnabled : Bool
  grayscaleChecked : Bool
  smoothChecked : Bool
  dilateChecked : Bool
  erodeChecked : Bool
  flipChecked : Bool
  cannyChecked : Bool
  imageBufferBarValue : Int
  frameLabel : LabelContent
  imageBufferLabel : String
  captureRateLabel : String
  processingRateLabel : String
  deviceNumberLabel : String
  cameraResolutionLabel : String
  roiLabel : String
  mouseCursorPosLabel : String
  processingFlags : ProcessingFlags
deriving DecidableEq, Repr

/-- The part of a window that `EstablishedState` lists. -/
def MainWindow.established (w : MainWindow) : EstablishedState :=
  { controller := w.controller,
    connectToCameraEnabled := w.connectToCameraAction.enabled,
    disconnectCameraEnabled := w.disconnectCameraAction.enabled,
    processingMenuEnabled := w.processingMenuEnabled,
    clearImageBufferButtonEnabled := w.clearImageBufferButtonEnabled,
    grayscaleChecked := w.grayscaleAction.checked,
    smoothChecked := w.smoothAction.checked,
    dilateChecked := w.dilateAction.checked,
    erodeChecked := w.erodeAction.checked,
    flipChecked := w.flipAction.checked,
    cannyChecked := w.cannyAction.checked,
    imageBufferBarValue := w.imageBufferBar.value,
    frameLabel := w.frameLabel.content,
    imageBufferLabel := w.imageBufferLabel,
    captureRateLabel := w.captureRateLabel,
    processingRateLabel := w.processingRateLabel,
    deviceNumberLabel := w.deviceNumberLabel,
    cameraResolutionLabel := w.cameraResolutionLabel,
    roiLabel := w.roiLabel,
    mouseCursorPosLabel := w.mouseCursorPosLabel,
    processingFlags := w.processingFlags }

/-- The values the constructor writes at lines 49-94, as an `EstablishedState`. -/
def disconnectedState : EstablishedState :=
  { controller := none,
    connectToCameraEnabled := true,
    disconnectCameraEnabled := false,
    processingMenuEnabled := false,
    clearImageBufferButtonEnabled := false,
    grayscaleChecked := false,
    smoothChecked := false,
    dilateChecked := false,
    erodeChecked := false,
    flipChecked := false,
    cannyChecked := false,
    imageBufferBarValue := 0,
    frameLabel := .text "No camera connected.",
    imageBufferLabel := "[000/000]",
    captureRateLabel := "",
    processingRateLabel := "",
    deviceNumberLabel := "",
    cameraResolutionLabel := "",
    roiLabel := "",
    mouseCursorPosLabel := "",
    processingFlags := ⟨false, false, false, false, false, false⟩ }

/-- A camera session: the states reached from the constructor by a successful
`connectToCamera`, followed by toggle signals and `updateFrame` calls. The setters
have no caller in `MainWindow.cpp` but the `toggled(bool)` connections of lines 65-70,
so a setter runs when the checked state of its action changes. -/
inductive Session (ops : ControllerOps) : MainWindow → Prop where
  | connected (ui : MainWindow) (dialog : ProcessingSettingsDialog) (version : String)
      (dlg : CameraConnectDialog) (hexec : dlg.execResult = 1)
      (hopen : (ops.newController dlg.deviceNumber dlg.imageBufferSize).captureThread.capture = true) :
      Session ops (MainWindow.connectToCamera ops (MainWindow.construct ui dialog version) dlg).1
  | toggled (w : MainWindow) (t : Toggle) (b : Bool) :
      Session ops w → Session ops (t.setChecked w b)
  | updateFrame (w w' : MainWindow) (frame : QImage) :
      Session ops w → MainWindow.updateFrame w frame = some w' → Session ops w'

/-- The window states reachable from the constructor through `connectToCamera`
(with any dialog outcome and any result of opening the camera), `disconnectCamera`,
the toggle setters (run directly or by a toggle signal) and `updateFrame`.
With `enabledOnly = true`, `connectToCamera` runs only while `connectToCameraAction`,
whose `triggered()` signal it is the slot of (line 62), is enabled; with
`enabledOnly = false` every slot may run in every state. -/
inductive Reachable (ops : ControllerOps) (enabledOnly : Bool) : MainWindow → Prop where
  | construct (ui : MainWindow) (dialog : ProcessingSettingsDialog) (version : String) :
      Reachable ops enabledOnly (MainWindow.construct ui dialog version)
  | connectToCamera (w : MainWindow) (dlg : CameraConnectDialog) :
      Reachable ops enabledOnly w → (enabledOnly = true → w.connectToCameraAction.enabled = true) →
      Reachable ops enabledOnly (MainWindow.connectToCamera ops w dlg).1
  | disconnectCamera (w : MainWindow) :
      Reachable ops enabledOnly w → Reachable ops enabledOnly (MainWindow.disconnectCamera ops w).1
  | setter (w : MainWindow) (t : Toggle) (b : Bool) :
      Reachable ops enabledOnly w → Reachable ops enabledOnly (t.slot w b)
  | toggled (w : MainWindow) (t : Toggle) (b : Bool) :
      Reachable ops enabledOnly w → Reachable ops enabledOnly (t.setChecked w b)
  | updateFrame (w w' : MainWindow) (frame : QImage) :
      Reachable ops enabledOnly w → MainWindow.updateFrame w frame = some w' →
      Reachable ops enabledOnly w'

/-! ## Theorems -/

/-- C6: each of the six setters stores its input in its own flag, leaves the other
five flags and every other member of the window (the controller with the worker-side
copies included) as they were; so each setter is idempotent and setters of
different flags commute. -/
theorem setters_independent (t : Toggle) (w : MainWindow) (b : Bool) :
    t.flag (t.slot w b).processingFlags = b ∧
    (∀ u : Toggle, u ≠ t → u.flag (t.slot w b).processingFlags = u.flag w.processingFlags) ∧
    t.slot w b = { w with processingFlags := (t.slot w b).processingFlags } ∧
    (t.slot w b).controller = w.controller ∧
    t.slot (t.slot w b) b = t.slot w b ∧
    (∀ (u : Toggle) (a : Bool), u ≠ t → u.slot (t.slot w b) a = t.slot (u.slot w a) b) := by
  refine ⟨?_, ?_, ?_, ?_, ?_, ?_⟩
  · cases t <;> cases b <;> rfl
  · intro u hu
    cases t <;> cases u <;> cases b <;> first | rfl | exact absurd rfl hu
  · cases t <;> cases b <;> rfl
  · cases t <;> cases b <;> rfl
  · cases t <;> cases b <;> rfl
  · intro u a hu
    cases t <;> cases u <;> cases b <;> cases a <;> first | rfl | exact absurd rfl hu

/-- C6 at a concrete input: `setCanny(true)` and `setGrayscale(false)` commute on the
sample window. -/
theorem setters_independent_witness :
    Toggle.canny ≠ Toggle.grayscale ∧
    MainWindow.setCanny (MainWindow.setGrayscale sampleWindow false) true =
      MainWindow.setGrayscale (MainWindow.setCanny sampleWindow true) false :=
  ⟨by decide, (setters_independent .grayscale sampleWindow false).2.2.2.2.2 .canny true (by decide)⟩

/-! ### What `setChecked` and the widget reset do, member by member -/

theorem grayscaleAction_setChecked_eq (w : MainWindow) (b : Bool) :
    MainWindow.grayscaleAction_setChecked w b =
      { w with
        grayscaleAction := { w.grayscaleAction with checked := b },
        processingFlags := { w.processingFlags with
          grayscaleOn := if w.grayscaleAction.checked = b then w.processingFlags.grayscaleOn else b } } := by
  unfold MainWindow.grayscaleAction_setChecked
  split_ifs with h
  · subst h; rfl
  · cases b <;> rfl

theorem smoothAction_setChecked_eq (w : MainWindow) (b : Bool) :
    MainWindow.smoothAction_setChecked w b =
      { w with
        smoothAction := { w.smoothAction with checked := b },
        processingFlags := { w.processingFlags with
          smoothOn := if w.smoothAction.checked = b then w.processingFlags.smoothOn else b } } := by
  unfold MainWindow.smoothAction_setChecked
  split_ifs with h
  · subst h; rfl
  · cases b <;> rfl

theorem dilateAction_setChecked_eq (w : MainWindow) (b : Bool) :
    MainWindow.dilateAction_setChecked w b =
      { w with
        dilateAction := { w.dilateAction with checked := b },
        processingFlags := { w.processingFlags with
          dilateOn := if w.dilateAction.checked = b then w.processingFlags.dilateOn else b } } := by
  unfold MainWindow.dilateAction_setChecked
  split_ifs with h
  · subst h; rfl
  · cases b <;> rfl

theorem erodeAction_setChecked_eq (w : MainWindow) (b : Bool) :
    MainWindow.erodeAction_setChecked w b =
      { w with
        erodeAction := { w.erodeAction with checked := b },
        processingFlags := { w.processingFlags with
          erodeOn := if w.erodeAction.checked = b then w.processingFlags.erodeOn else b } } := by
  unfold MainWindow.erodeAction_setChecked
  split_ifs with h
  · subst h; rfl
  · cases b <;> rfl

theorem flipAction_setChecked_eq (w : MainWindow) (b : Bool) :
    MainWindow.flipAction_setChecked w b =
      { w with
        flipAction := { w.flipAction with checked := b },
        processingFlags := { w.processingFlags with
          flipOn := if w.flipAction.checked = b then w.processingFlags.flipOn else b } } := by
  unfold MainWindow.flipAction_setChecked
  split_ifs with h
  · subst h; rfl
  · cases b <;> rfl

theorem cannyAction_setChecked_eq (w : MainWindow) (b : Bool) :
    MainWindow.cannyAction_setChecked w b =
      { w with
        cannyAction := { w.cannyAction with checked := b },
        processingFlags := { w.processingFlags with
          cannyOn := if w.cannyAction.checked = b then w.processingFlags.cannyOn else b } } := by
  unfold MainWindow.cannyAction_setChecked
  split_ifs with h
  · subst h; rfl
  · cases b <;> rfl

/-- The window `disconnectCamera` leaves behind (lines 194-215), member by member: a
flag is cleared where its action was checked and kept where it was not. -/
theorem disconnectCamera_reset_eq (w : MainWindow) :
    MainWindow.disconnectCamera_reset w =
      { w with
        controller := none,
        connectToCameraAction := { w.connectToCameraAction with enabled := true },
        disconnectCameraAction := { w.disconnectCameraAction with enabled := false },
        processingMenuEnabled := false,
        grayscaleAction := { w.grayscaleAction with checked := false },
        smoothAction := { w.smoothAction with checked := false },
        dilateAction := { w.dilateAction with checked := false },
        erodeAction := { w.erodeAction with checked := false },
        flipAction := { w.flipAction with checked := false },
        cannyAction := { w.cannyAction with checked := false },
        processingFlags :=
          { grayscaleOn := if w.grayscaleAction.checked = false
              then w.processingFlags.grayscaleOn else false,
            smoothOn := if w.smoothAction.checked = false
              then w.processingFlags.smoothOn else false,
            dilateOn := if w.dilateAction.checked = false
              then w.processingFlags.dilateOn else false,
            erodeOn := if w.erodeAction.checked = false
              then w.processingFlags.erodeOn else false,
            flipOn := if w.flipAction.checked = false
              then w.processingFlags.flipOn else false,
            cannyOn := if w.cannyAction.checked = false
              then w.processingFlags.cannyOn else false },
        frameLabel := { w.frameLabel with content := .text "No camera connected." },
        imageBufferBar := { w.imageBufferBar with value := 0 },
        imageBufferLabel := "[000/000]",
        captureRateLabel := "",
        processingRateLabel := "",
        deviceNumberLabel := "",
        cameraResolutionLabel := "",
        roiLabel := "",
        mouseCursorPosLabel := "",
        clearImageBufferButtonEnabled := false } := by
  simp only [MainWindow.disconnectCamera_reset, grayscaleAction_setChecked_eq,
    smoothAction_setChecked_eq, dilateAction_setChecked_eq, erodeAction_setChecked_eq,
    flipAction_setChecked_eq, cannyAction_setChecked_eq]
  rfl

/-! ### Teardown order -/

theorem finishedCheckState_eq (ops : ControllerOps) (c : Controller) :
    finishedCheckState ops c =
      ops.clearImageBuffer (if (afterProcessingStop ops c).captureThread.isActive
        then ops.stopCaptureThread (afterProcessingStop ops c) else afterProcessingStop ops c) := rfl

/-- The trace of `disconnectCamera` on a held controller, in closed form. -/
theorem disconnectCamera_trace (ops : ControllerOps) (w : MainWindow) (c : Controller)
    (hc : w.controller = some c) :
    (MainWindow.disconnectCamera ops w).2 =
      teardownTrace c.processingThread.isActive
        (afterProcessingStop ops c).captureThread.isActive
        ((finishedCheckState ops c).captureThread.finished &&
          (finishedCheckState ops c).processingThread.finished)
        (finishedCheckState ops c).captureThread.capture := by
  simp only [MainWindow.disconnectCamera, hc, finishedCheckState, afterProcessingStop,
    teardownTrace]
  by_cases h1 : c.processingThread.isActive = true <;> simp only [h1, if_true, if_false] <;>
    split_ifs <;> simp_all

/-- The trace of the destructor on a held controller, in closed form. -/
theorem destruct_trace (ops : ControllerOps) (w : MainWindow) (c : Controller)
    (hc : w.controller = some c) :
    (MainWindow.destruct ops w).2 =
      teardownTrace c.processingThread.isActive
        (afterProcessingStop ops c).captureThread.isActive
        ((finishedCheckState ops c).captureThread.finished &&
          (finishedCheckState ops c).processingThread.finished)
        (finishedCheckState ops c).captureThread.capture := by
  simp only [MainWindow.destruct, hc, finishedCheckState, afterProcessingStop,
    teardownTrace]
  by_cases h1 : c.processingThread.isActive = true <;> simp only [h1, if_true, if_false] <;>
    split_ifs <;> simp_all

/-- C1, as stated, fails on the sample session: both workers are active, yet
`stopCaptureThread` is not issued before `stopProcessingThread`; the trace is the
one displayed. -/
theorem disconnectCamera_order_counterexample :
    connectedWindow.controller = some runningController ∧
    runningController.captureThread.isActive = true ∧
    runningController.processingThread.isActive = true ∧
    (MainWindow.disconnectCamera sampleOps connectedWindow).2 =
      [.disconnectNewFrame, .stopProcessingThread, .stopCaptureThread, .clearImageBuffer,
       .disconnectCamera, .deleteProcessingThread, .deleteCaptureThread, .deleteController] ∧
    ¬ issuedBefore .stopCaptureThread .stopProcessingThread
        (MainWindow.disconnectCamera sampleOps connectedWindow).2 := by
  refine ⟨rfl, rfl, rfl, rfl, ?_⟩
  decide

/-- C1, amended: from a connected state with both workers active, `disconnectCamera`
stops the processing worker first; a `stopCaptureThread` call comes after it (and is
issued whenever the capture worker is still active after the first stop), never
before it; and the source is released only after every stop call issued. -/
theorem disconnectCamera_order (ops : ControllerOps) (w : MainWindow) (c : Controller)
    (hc : w.controller = some c) (hproc : c.processingThread.isActive = true)
    (_hcap : c.captureThread.isActive = true) :
    Event.stopProcessingThread ∈ (MainWindow.disconnectCamera ops w).2 ∧
    ¬ issuedBefore .stopCaptureThread .stopProcessingThread (MainWindow.disconnectCamera ops w).2 ∧
    ((ops.stopProcessingThread c).captureThread.isActive = true →
      issuedBefore .stopProcessingThread .stopCaptureThread (MainWindow.disconnectCamera ops w).2) ∧
    (Event.stopCaptureThread ∈ (MainWindow.disconnectCamera ops w).2 →
      issuedBefore .stopProcessingThread .stopCaptureThread (MainWindow.disconnectCamera ops w).2) ∧
    (Event.disconnectCamera ∈ (MainWindow.disconnectCamera ops w).2 →
      issuedBefore .stopProcessingThread .disconnectCamera (MainWindow.disconnectCamera ops w).2 ∧
      (Event.stopCaptureThread ∈ (MainWindow.disconnectCamera ops w).2 →
        issuedBefore .stopCaptureThread .disconnectCamera (MainWindow.disconnectCamera ops w).2)) := by
  have h1 : afterProcessingStop ops c = ops.stopProcessingThread c := by
    simp [afterProcessingStop, hproc]
  rw [disconnectCamera_trace ops w c hc, hproc, h1]
  generalize (ops.stopProcessingThread c).captureThread.isActive = b2
  generalize ((finishedCheckState ops c).captureThread.finished &&
    (finishedCheckState ops c).processingThread.finished) = b3
  generalize (finishedCheckState ops c).captureThread.capture = b4
  cases b2 <;> cases b3 <;> cases b4 <;> decide

/-- C1 amended, on the sample session. -/
theorem disconnectCamera_order_witness :
    connectedWindow.controller = some runningController ∧
    runningController.processingThread.isActive = true ∧
    runningController.captureThread.isActive = true ∧
    issuedBefore .stopProcessingThread .stopCaptureThread
      (MainWindow.disconnectCamera sampleOps connectedWindow).2 :=
  ⟨rfl, rfl, rfl,
    (disconnectCamera_order sampleOps connectedWindow runningController rfl rfl rfl).2.2.1 rfl⟩

/-! ### Teardown without a controller -/

/-- C2, as stated, fails on the window the constructor leaves: no controller is held,
and `disconnectCamera` shows the warning box; so does the second of two calls in a row
from the connected sample window. -/
theorem disconnectCamera_null_counterexample :
    sampleWindow.controller = none ∧
    (MainWindow.disconnectCamera sampleOps sampleWindow).2 =
      [.warning "ERROR:" "Could not disconnect camera."] ∧
    MainWindow.disconnectCamera sampleOps sampleWindow ≠ (sampleWindow, []) ∧
    connectedWindow.controller ≠ none ∧
    (MainWindow.disconnectCamera sampleOps
        (MainWindow.disconnectCamera sampleOps connectedWindow).1).2 =
      [.warning "ERROR:" "Could not disconnect camera."] := by
  refine ⟨rfl, rfl, ?_, ?_, rfl⟩
  · intro h
    have h2 : (MainWindow.disconnectCamera sampleOps sampleWindow).2 = [] := by rw [h]
    exact absurd h2 (by decide)
  · decide

/-- The window `disconnectCamera` leaves holds no controller. -/
theorem disconnectCamera_controller (ops : ControllerOps) (w : MainWindow) :
    (MainWindow.disconnectCamera ops w).1.controller = none := by
  unfold MainWindow.disconnectCamera
  split
  · simp only [disconnectCamera_reset_eq]
  · assumption

/-- C2, amended: with no controller held, `disconnectCamera` leaves every member of
the window unchanged and issues no call on the controller; the one thing it does is
show the warning box "Could not disconnect camera.". So the second of two calls in a
row changes nothing, releases nothing, and shows that warning. -/
theorem disconnectCamera_null (ops : ControllerOps) (w : MainWindow) :
    (w.controller = none →
      MainWindow.disconnectCamera ops w = (w, [.warning "ERROR:" "Could not disconnect camera."])) ∧
    MainWindow.disconnectCamera ops (MainWindow.disconnectCamera ops w).1 =
      ((MainWindow.disconnectCamera ops w).1, [.warning "ERROR:" "Could not disconnect camera."]) ∧
    (∀ e ∈ (MainWindow.disconnectCamera ops (MainWindow.disconnectCamera ops w).1).2,
      e.isControllerOp = false) := by
  have key : ∀ v : MainWindow, v.controller = none →
      MainWindow.disconnectCamera ops v =
        (v, [.warning "ERROR:" "Could not disconnect camera."]) := by
    intro v hv
    simp only [MainWindow.disconnectCamera, hv]
  refine ⟨key w, key _ (disconnectCamera_controller ops w), ?_⟩
  rw [key _ (disconnectCamera_controller ops w)]
  intro e he
  simp only [List.mem_singleton] at he
  subst he
  rfl

/-- C2 amended, on the window the constructor leaves. -/
theorem disconnectCamera_null_witness :
    sampleWindow.controller = none ∧
    MainWindow.disconnectCamera sampleOps sampleWindow =
      (sampleWindow, [.warning "ERROR:" "Could not disconnect camera."]) :=
  ⟨rfl, (disconnectCamera_null sampleOps sampleWindow).1 rfl⟩

/-! ### A failed connection attempt -/

/-- C3, as stated, fails on the window the constructor leaves: the dialog is accepted,
the camera does not open, and the controller built for the attempt is still held. -/
theorem connectToCamera_failure_counterexample :
    sampleWindow.controller = none ∧
    acceptDevice7.execResult = 1 ∧
    (sampleOps.newController acceptDevice7.deviceNumber
      acceptDevice7.imageBufferSize).captureThread.capture = false ∧
    (MainWindow.connectToCamera sampleOps sampleWindow acceptDevice7).1.controller =
      some failedController ∧
    (MainWindow.connectToCamera sampleOps sampleWindow acceptDevice7).1.controller ≠ none := by
  refine ⟨rfl, rfl, rfl, rfl, ?_⟩
  decide

/-- C3, amended: when the dialog is accepted and the camera cannot be opened,
`connectToCamera` builds the controller, shows the warning box and changes no widget
and no flag: apart from `cameraConnectDialog`, `imageBufferSize` and `controller` the
window is what it was (connect action, disconnect action, processing menu and
clear-buffer button as before). The failure is fatal to that attempt only: an accepted
retry does exactly what it would have done from the state before the failed attempt. -/
theorem connectToCamera_failure (ops : ControllerOps) (w : MainWindow) (dlg : CameraConnectDialog)
    (hexec : dlg.execResult = 1)
    (hfail : (ops.newController dlg.deviceNumber dlg.imageBufferSize).captureThread.capture = false) :
    (MainWindow.connectToCamera ops w dlg).1 =
      { w with
        cameraConnectDialog := some dlg,
        imageBufferSize := dlg.imageBufferSize,
        controller := (MainWindow.connectToCamera ops w dlg).1.controller } ∧
    (MainWindow.connectToCamera ops w dlg).2 =
      [.newController dlg.deviceNumber dlg.imageBufferSize,
       .warning "ERROR:" "Could not connect to camera."] ∧
    (∀ retry : CameraConnectDialog, retry.execResult = 1 →
      MainWindow.connectToCamera ops (MainWindow.connectToCamera ops w dlg).1 retry =
        MainWindow.connectToCamera ops w retry) := by
  have h : MainWindow.connectToCamera ops w dlg =
      ({ w with
          cameraConnectDialog := some dlg,
          imageBufferSize := dlg.imageBufferSize,
          controller := some (ops.newController dlg.deviceNumber dlg.imageBufferSize) },
        [.newController dlg.deviceNumber dlg.imageBufferSize,
         .warning "ERROR:" "Could not connect to camera."]) := by
    simp only [MainWindow.connectToCamera, hexec, hfail, if_true]
    rfl
  refine ⟨?_, ?_, ?_⟩
  · rw [h]
  · rw [h]
  · intro retry hretry
    rw [h]
    simp only [MainWindow.connectToCamera, hretry, if_true]

/-- C3 amended, on the window the constructor leaves: after the failed attempt on
device `7` the widgets are those of the disconnected state. -/
theorem connectToCamera_failure_witness :
    acceptDevice7.execResult = 1 ∧
    (sampleOps.newController acceptDevice7.deviceNumber
      acceptDevice7.imageBufferSize).captureThread.capture = false ∧
    (MainWindow.connectToCamera sampleOps sampleWindow acceptDevice7).2 =
      [.newController 7 10, .warning "ERROR:" "Could not connect to camera."] ∧
    MainWindow.connectToCamera sampleOps
        (MainWindow.connectToCamera sampleOps sampleWindow acceptDevice7).1 acceptDevice0 =
      MainWindow.connectToCamera sampleOps sampleWindow acceptDevice0 :=
  ⟨rfl, rfl, (connectToCamera_failure sampleOps sampleWindow acceptDevice7 rfl rfl).2.1,
    (connectToCamera_failure sampleOps sampleWindow acceptDevice7 rfl rfl).2.2 acceptDevice0 rfl⟩

/-! ### Destructive calls are guarded -/

/-- C4: in `disconnectCamera` and in the destructor, `controller->disconnectCamera`,
`deleteProcessingThread` and `deleteCaptureThread` are issued only on a held
controller for which, when the test of line 183 (113) is evaluated, both
`captureThread->isFinished()` and `processingThread->isFinished()` hold; and
`controller->disconnectCamera` only if moreover `capture != NULL` there. -/
theorem teardown_guarded (ops : ControllerOps) (w : MainWindow) (e : Event)
    (hd : e.isDestructive = true)
    (he : e ∈ (MainWindow.disconnectCamera ops w).2 ∨ e ∈ (MainWindow.destruct ops w).2) :
    ∃ c, w.controller = some c ∧
      (finishedCheckState ops c).captureThread.finished = true ∧
      (finishedCheckState ops c).processingThread.finished = true ∧
      (e = .disconnectCamera → (finishedCheckState ops c).captureThread.capture = true) := by
  cases hw : w.controller with
  | none =>
    have h1 : (MainWindow.disconnectCamera ops w).2 =
        [.warning "ERROR:" "Could not disconnect camera."] := by
      simp only [MainWindow.disconnectCamera, hw]
    have h2 : (MainWindow.destruct ops w).2 = [] := by
      simp only [MainWindow.destruct, hw]
    rw [h1, h2] at he
    rcases he with he | he
    · simp only [List.mem_singleton] at he
      subst he
      exact absurd hd (by decide)
    · exact absurd he (List.not_mem_nil e)
  | some c =>
    refine ⟨c, rfl, ?_⟩
    rw [disconnectCamera_trace ops w c hw, destruct_trace ops w c hw, or_self] at he
    revert he
    generalize c.processingThread.isActive = b1
    generalize (afterProcessingStop ops c).captureThread.isActive = b2
    generalize (finishedCheckState ops c).captureThread.finished = f1
    generalize (finishedCheckState ops c).processingThread.finished = f2
    generalize (finishedCheckState ops c).captureThread.capture = b4
    cases e <;> first
      | (cases b1 <;> cases b2 <;> cases f1 <;> cases f2 <;> cases b4 <;> decide)
      | (simp [Event.isDestructive] at hd)

/-- C4 on the sample session: `deleteCaptureThread` is issued, and both workers had
finished at the test. -/
theorem teardown_guarded_witness :
    Event.deleteCaptureThread ∈ (MainWindow.disconnectCamera sampleOps connectedWindow).2 ∧
    ∃ c, connectedWindow.controller = some c ∧
      (finishedCheckState sampleOps c).captureThread.finished = true ∧
      (finishedCheckState sampleOps c).processingThread.finished = true ∧
      (Event.deleteCaptureThread = .disconnectCamera →
        (finishedCheckState sampleOps c).captureThread.capture = true) :=
  ⟨by decide, teardown_guarded sampleOps connectedWindow .deleteCaptureThread rfl
    (Or.inl (by decide))⟩

/-! ### Destructor and `disconnectCamera` -/

/-- C10: on every window and every controller state the destructor issues exactly the
controller operations `disconnectCamera` issues, in the same order, and both leave
`controller == NULL`. The destructor changes nothing else; `disconnectCamera` also
resets the widgets, and with no controller held it shows the warning box while the
destructor does nothing. -/
theorem destruct_matches_disconnectCamera (ops : ControllerOps) (w : MainWindow) :
    (MainWindow.destruct ops w).2.filter Event.isControllerOp =
      (MainWindow.disconnectCamera ops w).2.filter Event.isControllerOp ∧
    (MainWindow.destruct ops w).1.controller = none ∧
    (MainWindow.disconnectCamera ops w).1.controller = none ∧
    (MainWindow.destruct ops w).1 = { w with controller := none } ∧
    (∀ c, w.controller = some c →
      (MainWindow.destruct ops w).2 = (MainWindow.disconnectCamera ops w).2 ∧
      (MainWindow.destruct ops w).2 =
        teardownTrace c.processingThread.isActive
          (afterProcessingStop ops c).captureThread.isActive
          ((finishedCheckState ops c).captureThread.finished &&
            (finishedCheckState ops c).processingThread.finished)
          (finishedCheckState ops c).captureThread.capture ∧
      (MainWindow.disconnectCamera ops w).1 = MainWindow.disconnectCamera_reset w) ∧
    (w.controller = none →
      MainWindow.destruct ops w = (w, []) ∧
      MainWindow.disconnectCamera ops w =
        (w, [.warning "ERROR:" "Could not disconnect camera."])) := by
  cases hw : w.controller with
  | none =>
    have h1 : MainWindow.disconnectCamera ops w =
        (w, [.warning "ERROR:" "Could not disconnect camera."]) := by
      simp only [MainWindow.disconnectCamera, hw]
    have h2 : MainWindow.destruct ops w = (w, []) := by
      simp only [MainWindow.destruct, hw]
    rw [h1, h2]
    refine ⟨rfl, hw, hw, ?_, ?_, fun _ => ⟨rfl, rfl⟩⟩
    · rw [← hw]
    · intro c hc
      exact absurd hc (by simp)
  | some c =>
    have h1 := disconnectCamera_trace ops w c hw
    have h2 := destruct_trace ops w c hw
    have h3 : (MainWindow.destruct ops w).1 = { w with controller := none } := by
      simp only [MainWindow.destruct, hw]
    have h4 : (MainWindow.disconnectCamera ops w).1 = MainWindow.disconnectCamera_reset w := by
      simp only [MainWindow.disconnectCamera, hw]
    refine ⟨by rw [h1, h2], by rw [h3], disconnectCamera_controller ops w, h3, ?_, ?_⟩
    · intro c' hc'
      cases hc'
      exact ⟨by rw [h1, h2], h2, h4⟩
    · intro h
      exact absurd h (by simp)

/-- C10 on the sample session: the trace both issue there. -/
theorem destruct_matches_disconnectCamera_witness :
    connectedWindow.controller = some runningController ∧
    (MainWindow.destruct sampleOps connectedWindow).2 =
      (MainWindow.disconnectCamera sampleOps connectedWindow).2 :=
  ⟨rfl, ((destruct_matches_disconnectCamera sampleOps connectedWindow).2.2.2.2.1
    runningController rfl).1⟩

/-! ### `updateFrame` -/

/-- With a controller held, `updateFrame` returns; the members the theorems below
are about, as it leaves them. -/
theorem updateFrame_some (w : MainWindow) (c : Controller) (frame : QImage)
    (hc : w.controller = some c) :
    ∃ w', MainWindow.updateFrame w frame = some w' ∧
      w'.controller = some { c with processingThread :=
        (MainWindow.updateFrame_publish c.processingThread
          (MainWindow.updateFrame_resetPress c.processingThread.frameLabel w.frameLabel)
          w.processingFlags w.processingSettingsDialog.processingSettings) } ∧
      w'.frameLabel = { (MainWindow.updateFrame_resetPress c.processingThread.frameLabel
        w.frameLabel) with content := .pixmap frame } ∧
      w'.processingFlags = w.processingFlags ∧
      w'.processingSettingsDialog = w.processingSettingsDialog ∧
      w'.connectToCameraAction = w.connectToCameraAction ∧
      w'.clearImageBufferButtonEnabled = w.clearImageBufferButtonEnabled ∧
      (∀ t : Toggle, t.action w' = t.action w) := by
  simp only [MainWindow.updateFrame, hc]
  refine ⟨_, rfl, rfl, rfl, rfl, rfl, rfl, rfl, ?_⟩
  intro t
  cases t <;> rfl

/-- The worker-side members after lines 301-325. -/
theorem updateFrame_publish_eq (p : ProcessingThread) (l : FrameLabel) (f : ProcessingFlags)
    (g : ProcessingSettings) :
    MainWindow.updateFrame_publish p l f g =
      { p with
        frameLabel := ⟨l.mouseXPos, l.mouseYPos, l.leftMouseButtonPress, l.rightMouseButtonPress,
          l.leftMouseButtonRelease, l.rightMouseButtonRelease⟩,
        processingFlags := f,
        processingSettings := g } := rfl

/-- The label after lines 296-299: a press flag stays set unless the worker has the
press and the label has the release; nothing else changes. -/
theorem updateFrame_resetPress_eq (m : MouseData) (l : FrameLabel) :
    MainWindow.updateFrame_resetPress m l =
      { l with
        leftMouseButtonPress :=
          l.leftMouseButtonPress && !(m.mouseLeftPressed && l.leftMouseButtonRelease),
        rightMouseButtonPress :=
          l.rightMouseButtonPress && !(m.mouseRightPressed && l.rightMouseButtonRelease) } := by
  obtain ⟨ct, x, y, lp, rp, lr, rr⟩ := l
  obtain ⟨mx, my, mlp, mrp, mlr, mrr⟩ := m
  cases lp <;> cases rp <;> cases lr <;> cases rr <;> cases mlp <;> cases mrp <;> rfl

/-- C8: with a controller held, `updateFrame` returns, and for each mouse button: if
the label's press flag is set and the worker's copy is not, the call leaves the
label's flag set and sets the worker's copy, whatever the release flag is; and the
call clears a set press flag of the label only when it starts with the worker's copy
set and the label's release flag set. -/
theorem updateFrame_keeps_press (w : MainWindow) (c : Controller) (frame : QImage)
    (hc : w.controller = some c) :
    ∃ w' c', MainWindow.updateFrame w frame = some w' ∧ w'.controller = some c' ∧
      (w.frameLabel.leftMouseButtonPress = true →
        c.processingThread.frameLabel.mouseLeftPressed = false →
        w'.frameLabel.leftMouseButtonPress = true ∧
        c'.processingThread.frameLabel.mouseLeftPressed = true) ∧
      (w.frameLabel.rightMouseButtonPress = true →
        c.processingThread.frameLabel.mouseRightPressed = false →
        w'.frameLabel.rightMouseButtonPress = true ∧
        c'.processingThread.frameLabel.mouseRightPressed = true) ∧
      (w.frameLabel.leftMouseButtonPress = true → w'.frameLabel.leftMouseButtonPress = false →
        c.processingThread.frameLabel.mouseLeftPressed = true ∧
        w.frameLabel.leftMouseButtonRelease = true) ∧
      (w.frameLabel.rightMouseButtonPress = true → w'.frameLabel.rightMouseButtonPress = false →
        c.processingThread.frameLabel.mouseRightPressed = true ∧
        w.frameLabel.rightMouseButtonRelease = true) := by
  obtain ⟨w', hw', hctl, hlabel, -⟩ := updateFrame_some w c frame hc
  refine ⟨w', _, hw', hctl, ?_, ?_, ?_, ?_⟩
  all_goals
    rw [hlabel]
    simp only [updateFrame_publish_eq, updateFrame_resetPress_eq]
    generalize c.processingThread.frameLabel.mouseLeftPressed = a1
    generalize c.processingThread.frameLabel.mouseRightPressed = a2
    generalize w.frameLabel.leftMouseButtonPress = a3
    generalize w.frameLabel.rightMouseButtonPress = a4
    generalize w.frameLabel.leftMouseButtonRelease = a5
    generalize w.frameLabel.rightMouseButtonRelease = a6
    cases a1 <;> cases a2 <;> cases a3 <;> cases a4 <;> cases a5 <;> cases a6 <;> decide

/-- A window in a session whose user pressed and released the left button since the
last frame: press and release flags are both set, the worker has seen neither. -/
theorem updateFrame_keeps_press_witness :
    ∃ w' c', MainWindow.updateFrame
        { connectedWindow with frameLabel :=
            { connectedWindow.frameLabel with
              leftMouseButtonPress := true, leftMouseButtonRelease := true } } ⟨[7]⟩ = some w' ∧
      w'.controller = some c' ∧
      w'.frameLabel.leftMouseButtonPress = true ∧
      c'.processingThread.frameLabel.mouseLeftPressed = true := by
  obtain ⟨w', c', h1, h2, h3, -⟩ := updateFrame_keeps_press
    { connectedWindow with frameLabel :=
        { connectedWindow.frameLabel with
          leftMouseButtonPress := true, leftMouseButtonRelease := true } } runningController ⟨[7]⟩ rfl
  exact ⟨w', c', h1, h2, h3 rfl rfl⟩

/-- C9: with a controller held, `updateFrame` returns, and afterwards each of the
worker's six processing flags equals the same-named flag of the window and each of the
worker's eleven processing settings equals the same-named stored setting of the
settings dialog; the window's flags and the stored settings are as before; and a
toggle setter, alone, leaves the controller (so the worker's copy) untouched. -/
theorem updateFrame_publishes_config (w : MainWindow) (c : Controller) (frame : QImage)
    (hc : w.controller = some c) :
    ∃ w' c', MainWindow.updateFrame w frame = some w' ∧ w'.controller = some c' ∧
      (∀ t : Toggle, t.flag c'.processingThread.processingFlags = t.flag w.processingFlags) ∧
      c'.processingThread.processingSettings.smoothType =
        w.processingSettingsDialog.processingSettings.smoothType ∧
      c'.processingThread.processingSettings.smoothParam1 =
        w.processingSettingsDialog.processingSettings.smoothParam1 ∧
      c'.processingThread.processingSettings.smoothParam2 =
        w.processingSettingsDialog.processingSettings.smoothParam2 ∧
      c'.processingThread.processingSettings.smoothParam3 =
        w.processingSettingsDialog.processingSettings.smoothParam3 ∧
      c'.processingThread.processingSettings.smoothParam4 =
        w.processingSettingsDialog.processingSettings.smoothParam4 ∧
      c'.processingThread.processingSettings.dilateNumberOfIterations =
        w.processingSettingsDialog.processingSettings.dilateNumberOfIterations ∧
      c'.processingThread.processingSettings.erodeNumberOfIterations =
        w.processingSettingsDialog.processingSettings.erodeNumberOfIterations ∧
      c'.processingThread.processingSettings.flipMode =
        w.processingSettingsDialog.processingSettings.flipMode ∧
      c'.processingThread.processingSettings.cannyThreshold1 =
        w.processingSettingsDialog.processingSettings.cannyThreshold1 ∧
      c'.processingThread.processingSettings.cannyThreshold2 =
        w.processingSettingsDialog.processingSettings.cannyThreshold2 ∧
      c'.processingThread.processingSettings.cannyApertureSize =
        w.processingSettingsDialog.processingSettings.cannyApertureSize ∧
      w'.processingFlags = w.processingFlags ∧
      w'.processingSettingsDialog.processingSettings =
        w.processingSettingsDialog.processingSettings ∧
      (∀ (t : Toggle) (b : Bool), (t.slot w b).controller = w.controller) := by
  obtain ⟨w', hw', hctl, -, hflags, hdialog, -⟩ := updateFrame_some w c frame hc
  refine ⟨w', _, hw', hctl, ?_, rfl, rfl, rfl, rfl, rfl, rfl, rfl, rfl, rfl, rfl, rfl, hflags,
    by rw [hdialog], ?_⟩
  · intro t
    cases t <;> rfl
  · intro t b
    cases t <;> cases b <;> rfl

/-- C9 on the sample session, after the user checked "grayscale": the worker's
flag is clear before the frame and set after it. -/
theorem updateFrame_publishes_config_witness :
    (MainWindow.setGrayscale connectedWindow true).controller = some runningController ∧
    runningController.processingThread.processingFlags.grayscaleOn = false ∧
    ∃ w' c', MainWindow.updateFrame (MainWindow.setGrayscale connectedWindow true) ⟨[7]⟩ = some w' ∧
      w'.controller = some c' ∧
      c'.processingThread.processingFlags.grayscaleOn = true := by
  obtain ⟨w', c', h1, h2, h3, -⟩ := updateFrame_publishes_config
    (MainWindow.setGrayscale connectedWindow true) runningController ⟨[7]⟩ rfl
  exact ⟨rfl, rfl, w', c', h1, h2, h3 .grayscale⟩

/-! ### Connect, disconnect, connect again -/

/-- What the constructor establishes, whatever the form left. -/
theorem construct_established (ui : MainWindow) (dialog : ProcessingSettingsDialog)
    (version : String) :
    (MainWindow.construct ui dialog version).established = disconnectedState := by
  simp only [MainWindow.construct, grayscaleAction_setChecked_eq,
    smoothAction_setChecked_eq, dilateAction_setChecked_eq, erodeAction_setChecked_eq,
    flipAction_setChecked_eq, cannyAction_setChecked_eq]
  simp [MainWindow.established, disconnectedState, Id.run]

/-- In a window whose flags agree with the checked state of their actions, the reset of
`disconnectCamera` establishes what the constructor does. -/
theorem disconnectCamera_reset_established (w : MainWindow)
    (hsync : ∀ t : Toggle, t.flag w.processingFlags = (t.action w).checked) :
    (MainWindow.disconnectCamera_reset w).established = disconnectedState := by
  have h1 := hsync .grayscale
  have h2 := hsync .smooth
  have h3 := hsync .dilate
  have h4 := hsync .erode
  have h5 := hsync .flip
  have h6 := hsync .canny
  simp only [Toggle.flag, Toggle.action] at h1 h2 h3 h4 h5 h6
  rw [disconnectCamera_reset_eq]
  simp only [MainWindow.established, disconnectedState, h1, h2, h3, h4, h5, h6]
  simp

/-- A toggle signal keeps the flags in agreement with the checked states and does not
touch the controller. -/
theorem setChecked_sync (t : Toggle) (w : MainWindow) (b : Bool)
    (hsync : ∀ u : Toggle, u.flag w.processingFlags = (u.action w).checked) :
    (∀ u : Toggle, u.flag (t.setChecked w b).processingFlags = (u.action (t.setChecked w b)).checked) ∧
    (t.setChecked w b).controller = w.controller := by
  constructor
  · intro u
    have hu := hsync u
    cases t <;> cases u <;>
      simp only [Toggle.setChecked, Toggle.flag, Toggle.action, grayscaleAction_setChecked_eq,
        smoothAction_setChecked_eq, dilateAction_setChecked_eq, erodeAction_setChecked_eq,
        flipAction_setChecked_eq, cannyAction_setChecked_eq] at hu ⊢ <;>
      first
        | exact hu
        | (split_ifs with h
           · rw [hu, h]
           · rfl)
  · cases t <;>
      simp only [Toggle.setChecked, grayscaleAction_setChecked_eq,
        smoothAction_setChecked_eq, dilateAction_setChecked_eq, erodeAction_setChecked_eq,
        flipAction_setChecked_eq, cannyAction_setChecked_eq]

/-- Throughout a session a controller is held and each flag agrees with the checked
state of its action. -/
theorem Session.invariant (ops : ControllerOps) (w : MainWindow) (h : Session ops w) :
    (∃ c, w.controller = some c) ∧
    (∀ t : Toggle, t.flag w.processingFlags = (t.action w).checked) := by
  induction h with
  | connected ui dialog version dlg hexec hopen =>
    have hest := construct_established ui dialog version
    simp only [MainWindow.established, disconnectedState, EstablishedState.mk.injEq] at hest
    obtain ⟨-, -, -, -, -, g1, g2, g3, g4, g5, g6, -, -, -, -, -, -, -, -, -, hf⟩ := hest
    simp only [MainWindow.connectToCamera, hexec, hopen, if_true]
    refine ⟨⟨_, rfl⟩, ?_⟩
    intro t
    cases t <;> simp only [Toggle.flag, Toggle.action, MainWindow.connectToCamera_success, Id.run]
    · show (MainWindow.construct ui dialog version).processingFlags.grayscaleOn = _
      rw [hf]; exact g1.symm
    · show (MainWindow.construct ui dialog version).processingFlags.smoothOn = _
      rw [hf]; exact g2.symm
    · show (MainWindow.construct ui dialog version).processingFlags.dilateOn = _
      rw [hf]; exact g3.symm
    · show (MainWindow.construct ui dialog version).processingFlags.erodeOn = _
      rw [hf]; exact g4.symm
    · show (MainWindow.construct ui dialog version).processingFlags.flipOn = _
      rw [hf]; exact g5.symm
    · show (MainWindow.construct ui dialog version).processingFlags.cannyOn = _
      rw [hf]; exact g6.symm
  | toggled w t b _ ih =>
    obtain ⟨⟨c, hc⟩, hsync⟩ := ih
    refine ⟨⟨c, ?_⟩, (setChecked_sync t w b hsync).1⟩
    rw [(setChecked_sync t w b hsync).2, hc]
  | updateFrame w w' frame _ hw' ih =>
    obtain ⟨⟨c, hc⟩, hsync⟩ := ih
    obtain ⟨v, hv, hctl, -, hflags, -, -, -, hact⟩ := updateFrame_some w c frame hc
    rw [hv] at hw'
    cases hw'
    refine ⟨⟨_, hctl⟩, ?_⟩
    intro t
    rw [hflags, hact t]
    exact hsync t

/-- What `connectToCamera` establishes and issues depends on the window only through
its `established` part. -/
theorem connectToCamera_established (ops : ControllerOps) (w v : MainWindow)
    (dlg : CameraConnectDialog) (h : w.established = v.established) :
    (MainWindow.connectToCamera ops w dlg).1.established =
      (MainWindow.connectToCamera ops v dlg).1.established ∧
    (MainWindow.connectToCamera ops w dlg).2 = (MainWindow.connectToCamera ops v dlg).2 := by
  simp only [MainWindow.established, EstablishedState.mk.injEq] at h
  obtain ⟨h0, h1, h2, h3, h4, h5, h6, h7, h8, h9, h10, h11, h12, h13, h14, h15, h16, h17, h18,
    h19, h20⟩ := h
  simp only [MainWindow.connectToCamera]
  split_ifs <;>
    simp [MainWindow.established, MainWindow.connectToCamera_success, Id.run, *]

/-- C5: in every state of a session (a successful `connectToCamera` on the window the
constructor leaves, then any toggle signals and `updateFrame` calls), `disconnectCamera`
sets the controller pointer, the enabled state of the connect action, disconnect action,
processing menu and clear-buffer button, the checked state of the six toggle actions,
the buffer bar value, every label text and the six processing flags to the values the
constructor established; so a following `connectToCamera` establishes and issues what it
does on the window the constructor leaves. -/
theorem connect_disconnect_roundtrip (ops : ControllerOps) (w : MainWindow)
    (h : Session ops w) (ui : MainWindow) (dialog : ProcessingSettingsDialog)
    (version : String) :
    (MainWindow.disconnectCamera ops w).1.established =
      (MainWindow.construct ui dialog version).established ∧
    (MainWindow.disconnectCamera ops w).1.established = disconnectedState ∧
    (∀ dlg : CameraConnectDialog,
      (MainWindow.connectToCamera ops (MainWindow.disconnectCamera ops w).1 dlg).1.established =
        (MainWindow.connectToCamera ops (MainWindow.construct ui dialog version) dlg).1.established ∧
      (MainWindow.connectToCamera ops (MainWindow.disconnectCamera ops w).1 dlg).2 =
        (MainWindow.connectToCamera ops (MainWindow.construct ui dialog version) dlg).2) := by
  obtain ⟨⟨c, hc⟩, hsync⟩ := Session.invariant ops w h
  have h1 : (MainWindow.disconnectCamera ops w).1 = MainWindow.disconnectCamera_reset w := by
    simp only [MainWindow.disconnectCamera, hc]
  have h2 : (MainWindow.disconnectCamera ops w).1.established = disconnectedState := by
    rw [h1]
    exact disconnectCamera_reset_established w hsync
  have h3 : (MainWindow.disconnectCamera ops w).1.established =
      (MainWindow.construct ui dialog version).established := by
    rw [h2, construct_established]
  exact ⟨h3, h2, fun dlg => connectToCamera_established ops _ _ dlg h3⟩

/-- The sample window with "grayscale" checked and a frame shown is a state of a session. -/
theorem framedWindow_session : Session sampleOps framedWindow :=
  Session.updateFrame grayscaleWindow framedWindow ⟨[7]⟩
    (Session.toggled connectedWindow .grayscale true
      (Session.connected sampleUi sampleUi.processingSettingsDialog "1.0" acceptDevice0 rfl rfl))
    rfl

/-- C5 on the sample session with "grayscale" checked and a frame shown. -/
theorem connect_disconnect_roundtrip_witness :
    Session sampleOps framedWindow ∧
    framedWindow.processingFlags.grayscaleOn = true ∧
    framedWindow.frameLabel.content = .pixmap ⟨[7]⟩ ∧
    (MainWindow.disconnectCamera sampleOps framedWindow).1.established =
      sampleWindow.established :=
  ⟨framedWindow_session, rfl, rfl,
    (connect_disconnect_roundtrip sampleOps framedWindow framedWindow_session sampleUi
      sampleUi.processingSettingsDialog "1.0").1⟩

/-! ### The clear-buffer button -/

/-- A toggle setter touches the flags only. -/
theorem slot_frame (t : Toggle) (w : MainWindow) (b : Bool) :
    (t.slot w b).controller = w.controller ∧
    (t.slot w b).connectToCameraAction = w.connectToCameraAction ∧
    (t.slot w b).clearImageBufferButtonEnabled = w.clearImageBufferButtonEnabled := by
  cases t <;> cases b <;> exact ⟨rfl, rfl, rfl⟩

/-- A toggle signal touches its action and its flag only. -/
theorem setChecked_frame (t : Toggle) (w : MainWindow) (b : Bool) :
    (t.setChecked w b).controller = w.controller ∧
    (t.setChecked w b).connectToCameraAction = w.connectToCameraAction ∧
    (t.setChecked w b).clearImageBufferButtonEnabled = w.clearImageBufferButtonEnabled := by
  cases t <;>
    simp only [Toggle.setChecked, grayscaleAction_setChecked_eq,
      smoothAction_setChecked_eq, dilateAction_setChecked_eq, erodeAction_setChecked_eq,
      flipAction_setChecked_eq, cannyAction_setChecked_eq, and_self]

/-- The three outcomes of `connectToCamera`, on the members the button invariant reads. -/
theorem connectToCamera_cases (ops : ControllerOps) (w : MainWindow) (dlg : CameraConnectDialog) :
    ((MainWindow.connectToCamera ops w dlg).1.controller = w.controller ∧
      (MainWindow.connectToCamera ops w dlg).1.connectToCameraAction = w.connectToCameraAction ∧
      (MainWindow.connectToCamera ops w dlg).1.clearImageBufferButtonEnabled =
        w.clearImageBufferButtonEnabled) ∨
    ((∃ c, (MainWindow.connectToCamera ops w dlg).1.controller = some c ∧
        c.captureThread.capture = false) ∧
      (MainWindow.connectToCamera ops w dlg).1.connectToCameraAction = w.connectToCameraAction ∧
      (MainWindow.connectToCamera ops w dlg).1.clearImageBufferButtonEnabled =
        w.clearImageBufferButtonEnabled) ∨
    ((∃ c, (MainWindow.connectToCamera ops w dlg).1.controller = some c ∧
        c.captureThread.capture = true) ∧
      (MainWindow.connectToCamera ops w dlg).1.connectToCameraAction.enabled = false ∧
      (MainWindow.connectToCamera ops w dlg).1.clearImageBufferButtonEnabled = true) := by
  simp only [MainWindow.connectToCamera]
  by_cases hexec : dlg.execResult = 1
  · cases hcap : (ops.newController dlg.deviceNumber dlg.imageBufferSize).captureThread.capture
    · right; left
      simp only [hexec, hcap, if_true]
      exact ⟨⟨_, rfl, hcap⟩, rfl, rfl⟩
    · right; right
      simp only [hexec, hcap, if_true]
      exact ⟨⟨_, rfl, hcap⟩, rfl, rfl⟩
  · left
    simp only [hexec, if_false, and_self]

/-- The two outcomes of `disconnectCamera`, on the members the button invariant reads. -/
theorem disconnectCamera_cases (ops : ControllerOps) (w : MainWindow) :
    (w.controller = none ∧ (MainWindow.disconnectCamera ops w).1 = w) ∨
    (MainWindow.disconnectCamera ops w).1.clearImageBufferButtonEnabled = false := by
  cases hw : w.controller with
  | none =>
    left
    simp only [MainWindow.disconnectCamera, hw, and_self]
  | some c =>
    right
    simp only [MainWindow.disconnectCamera, hw, disconnectCamera_reset_eq]

/-- With any scheduling of the slots, an enabled clear-buffer button comes with a
held controller. -/
theorem Reachable.button_controller (ops : ControllerOps) (enabledOnly : Bool) (w : MainWindow)
    (h : Reachable ops enabledOnly w) :
    w.clearImageBufferButtonEnabled = true → ∃ c, w.controller = some c := by
  induction h with
  | construct ui dialog version =>
    intro hb
    have hest := construct_established ui dialog version
    simp only [MainWindow.established, disconnectedState, EstablishedState.mk.injEq] at hest
    rw [hest.2.2.2.2.1] at hb
    exact absurd hb (by decide)
  | connectToCamera w dlg _ _ ih =>
    intro hb
    rcases connectToCamera_cases ops w dlg with ⟨h1, -, h3⟩ | ⟨⟨c, h1, -⟩, -, -⟩ | ⟨⟨c, h1, -⟩, -, -⟩
    · rw [h1]
      exact ih (h3 ▸ hb)
    · exact ⟨c, h1⟩
    · exact ⟨c, h1⟩
  | disconnectCamera w _ ih =>
    intro hb
    rcases disconnectCamera_cases ops w with ⟨-, h2⟩ | h2
    · rw [h2] at hb ⊢
      exact ih hb
    · rw [h2] at hb
      exact absurd hb (by decide)
  | setter w t b _ ih =>
    intro hb
    obtain ⟨h1, -, h3⟩ := slot_frame t w b
    rw [h1]
    exact ih (h3 ▸ hb)
  | toggled w t b _ ih =>
    intro hb
    obtain ⟨h1, -, h3⟩ := setChecked_frame t w b
    rw [h1]
    exact ih (h3 ▸ hb)
  | updateFrame w w' frame _ hw' _ =>
    intro _
    cases hc : w.controller with
    | none =>
      simp only [MainWindow.updateFrame, hc] at hw'
      cases hw'
    | some c =>
      obtain ⟨v, hv, hctl, -⟩ := updateFrame_some w c frame hc
      rw [hv] at hw'
      cases hw'
      exact ⟨_, hctl⟩

/-- When `connectToCamera` runs only while its action is enabled, an enabled
clear-buffer button comes with a disabled connect action and a controller whose
camera is open. -/
theorem Reachable.button_connected (ops : ControllerOps) (w : MainWindow)
    (h : Reachable ops true w) :
    w.clearImageBufferButtonEnabled = true →
      w.connectToCameraAction.enabled = false ∧
      ∃ c, w.controller = some c ∧ c.captureThread.capture = true := by
  induction h with
  | construct ui dialog version =>
    intro hb
    have hest := construct_established ui dialog version
    simp only [MainWindow.established, disconnectedState, EstablishedState.mk.injEq] at hest
    rw [hest.2.2.2.2.1] at hb
    exact absurd hb (by decide)
  | connectToCamera w dlg _ hen0 ih =>
    intro hb
    have hen := hen0 rfl
    rcases connectToCamera_cases ops w dlg with ⟨-, -, h3⟩ | ⟨-, -, h3⟩ | ⟨hc, h2, -⟩
    · rw [h3] at hb
      rw [(ih hb).1] at hen
      exact absurd hen (by decide)
    · rw [h3] at hb
      rw [(ih hb).1] at hen
      exact absurd hen (by decide)
    · exact ⟨h2, hc⟩
  | disconnectCamera w _ ih =>
    intro hb
    rcases disconnectCamera_cases ops w with ⟨-, h2⟩ | h2
    · rw [h2] at hb ⊢
      exact ih hb
    · rw [h2] at hb
      exact absurd hb (by decide)
  | setter w t b _ ih =>
    intro hb
    obtain ⟨h1, h2, h3⟩ := slot_frame t w b
    rw [h1, h2]
    exact ih (h3 ▸ hb)
  | toggled w t b _ ih =>
    intro hb
    obtain ⟨h1, h2, h3⟩ := setChecked_frame t w b
    rw [h1, h2]
    exact ih (h3 ▸ hb)
  | updateFrame w w' frame _ hw' ih =>
    intro hb
    cases hc : w.controller with
    | none =>
      simp only [MainWindow.updateFrame, hc] at hw'
      cases hw'
    | some c =>
      obtain ⟨v, hv, hctl, -, -, -, hact, hbtn, -⟩ := updateFrame_some w c frame hc
      rw [hv] at hw'
      cases hw'
      rw [hbtn] at hb
      obtain ⟨h1, c0, h2, h3⟩ := ih hb
      rw [hc] at h2
      cases h2
      exact ⟨hact ▸ h1, _, hctl, h3⟩

/-- C7: in every state reachable from the constructor through `connectToCamera`
(successful or failed), `disconnectCamera`, the toggle setters and `updateFrame`, an
enabled clear-buffer button means a controller is held, so `clearImageBuffer` does not
run on `NULL`: it returns, issues the one call `controller->clearImageBuffer` and
changes no member of the window; this holds with the slots run in any state. When
`connectToCamera` runs only while its action is enabled, the held controller is moreover
one whose camera was opened. -/
theorem clearImageBuffer_only_connected (ops : ControllerOps) (w : MainWindow) :
    (∀ enabledOnly, Reachable ops enabledOnly w → w.clearImageBufferButtonEnabled = true →
      ∃ c, w.controller = some c ∧
        MainWindow.clearImageBuffer ops w =
          some ({ w with controller := some (ops.clearImageBuffer c) }, [.clearImageBuffer])) ∧
    (Reachable ops true w → w.clearImageBufferButtonEnabled = true →
      ∃ c, w.controller = some c ∧ c.captureThread.capture = true) ∧
    (w.controller = none → MainWindow.clearImageBuffer ops w = none) := by
  refine ⟨?_, ?_, ?_⟩
  · intro enabledOnly h hb
    obtain ⟨c, hc⟩ := Reachable.button_controller ops enabledOnly w h hb
    refine ⟨c, hc, ?_⟩
    simp only [MainWindow.clearImageBuffer, hc]
  · intro h hb
    exact (Reachable.button_connected ops w h hb).2
  · intro hw
    simp only [MainWindow.clearImageBuffer, hw]

/-- C7 on the connected sample window: it is reachable, its button is enabled, and
`clearImageBuffer` issues its one call. -/
theorem clearImageBuffer_only_connected_witness :
    Reachable sampleOps true connectedWindow ∧
    connectedWindow.clearImageBufferButtonEnabled = true ∧
    ∃ c, connectedWindow.controller = some c ∧
      MainWindow.clearImageBuffer sampleOps connectedWindow =
        some ({ connectedWindow with controller := some (sampleOps.clearImageBuffer c) },
          [.clearImageBuffer]) :=
  have hr : Reachable sampleOps true connectedWindow :=
    Reachable.connectToCamera sampleWindow acceptDevice0
      (Reachable.construct sampleUi sampleUi.processingSettingsDialog "1.0") (fun _ => rfl)
  ⟨hr, rfl, (clearImageBuffer_only_connected sampleOps connectedWindow).1 true hr rfl⟩

end QtOpenCV
